import Mathlib

/-!
# Verification of `node-stream-lib` (Sluice flow gate and Pump)

Shallow embedding of `src/lib/sluice.js`.  The file holds two components:

* `Sluice` — a duplex stream with two valves (`flowIn`, `flowOut`) and an
  internal FIFO `buffer`.  We model its state as a record; the downstream
  `this.push(...)` calls are recorded in an observation list `pushed`
  (an entry `none` is `push(null)`, i.e. the end-of-data signal).
* `Pump` — a coordinator that moves chunks from a registered source to a
  registered destination, each either `readable` (pull) or `writable`
  (push).  Its mutable fields are modelled as a record `Sys`; interactions
  with the surrounding streams are modelled by explicit state components
  (the readable source's available chunks, the readable destination's
  internal buffer, the writable destination's observed call trace) and by
  asynchronous actions (`Act`) that the event-loop driver interprets.

Chunks are opaque to both components, so everything is parametric in the
chunk type `α`.
-/

/-- Downstream valve state of a `Sluice`, line-by-line from `sluice.js`.
`buffer` holds `Option α`: the `finish` handler pushes the literal `null`
(`none`) as an end marker.  `pushed` is the observation of all
`this.push(...)` calls made so far, oldest first. -/
structure Sluice (α : Type) where
  buffer : List (Option α)
  flowIn : Bool
  flowOut : Bool
  pushed : List (Option α)
  deriving DecidableEq

namespace Sluice

variable {α : Type}

/-- A fresh gate: the constructor sets `this.buffer = []`; `flowIn` and
`flowOut` are the prototype defaults `true`. -/
def init : Sluice α := ⟨[], true, true, []⟩

/-- `Sluice.prototype._read`: if `flowOut` is false, return; otherwise
shift every buffered entry and push it downstream, in order. -/
def _read (s : Sluice α) : Sluice α :=
  if s.flowOut = false then s
  else { s with buffer := [], pushed := s.pushed ++ s.buffer }

/-- `Sluice.prototype._write(chunk, encoding, next)`.  The source calls
`next()` when `flowIn` is false but — lacking a `return` — still appends
the chunk to the buffer and calls `_read()`.  The returned `Bool` records
whether `next` was invoked. -/
def _write (s : Sluice α) (chunk : α) : Sluice α × Bool :=
  let nextCalled := s.flowIn = false
  let s1 := { s with buffer := s.buffer ++ [some chunk] }
  (s1._read, decide nextCalled)

/-- The `finish` listener installed by the constructor:
`this.buffer.push(null)`. -/
def onFinish (s : Sluice α) : Sluice α :=
  { s with buffer := s.buffer ++ [none] }

/-- `openInlet`: `this.flowIn = true; return this`. -/
def openInlet (s : Sluice α) : Sluice α := { s with flowIn := true }

/-- `closeInlet`: `this.flowIn = false; return this`. -/
def closeInlet (s : Sluice α) : Sluice α := { s with flowIn := false }

/-- `openOutlet`: `this.flowOut = true; this._read(); return this`. -/
def openOutlet (s : Sluice α) : Sluice α := _read { s with flowOut := true }

/-- `closeOutlet`: `this.flowOut = false; return this`. -/
def closeOutlet (s : Sluice α) : Sluice α := { s with flowOut := false }

/-- `pourIn`: `return this.closeOutlet().openInlet()`. -/
def pourIn (s : Sluice α) : Sluice α := s.closeOutlet.openInlet

/-- `pourOut`: `return this.openOutlet().closeInlet()`. -/
def pourOut (s : Sluice α) : Sluice α := s.openOutlet.closeInlet

/-- `fullFlow`: `return this.openOutlet().openInlet()`. -/
def fullFlow (s : Sluice α) : Sluice α := s.openOutlet.openInlet

/-- `freeze`: `return this.closeOutlet().closeInlet()`. -/
def freeze (s : Sluice α) : Sluice α := s.closeOutlet.closeInlet

end Sluice

/-- The gate together with the state of the Writable machinery wrapped
around its `_write` hook: `pendingAck` records a dispatched `_write`
whose `next` acknowledgment has not fired, and `writeQueue` holds chunks
accepted by the public `write()` but not yet dispatched to `_write`
(the machinery dispatches chunk k+1 only after chunk k's `next` has been
called). -/
structure SluiceW (α : Type) where
  gate : Sluice α
  pendingAck : Bool
  writeQueue : List α
  deriving DecidableEq

namespace SluiceW

variable {α : Type}

/-- A freshly constructed gate with idle writable machinery. -/
def fresh : SluiceW α := ⟨Sluice.init, false, []⟩

/-- The public `write(c)` under the Writable protocol: while an earlier
`_write` is unacknowledged the chunk is queued, otherwise it is
dispatched to `_write`.  The gate's `_write` acknowledges either
synchronously (the closed-inlet branch calls `next()`) or never — no
later code path fires a withheld `next` — so a pending acknowledgment is
permanent and queued chunks are never dispatched. -/
def write (w : SluiceW α) (c : α) : SluiceW α :=
  if w.pendingAck then { w with writeQueue := w.writeQueue ++ [c] }
  else
    let p := w.gate._write c
    { w with gate := p.1, pendingAck := !p.2 }

/-- A sequence of public `write()` calls, in order. -/
def writeSeq (w : SluiceW α) (cs : List α) : SluiceW α :=
  cs.foldl write w

end SluiceW

section SluiceTheorems

/-- C10 (code bug evaluation): a freshly constructed Sluice does have
the prototype defaults `flowIn = flowOut = true`, and the first written
chunk is forwarded at once — but `_write` withholds the `next()`
acknowledgment while the inlet is open, so the Writable machinery never
dispatches the second chunk to `_write`: it stalls in the writable
queue instead of being forwarded, and the gate is not a transparent
pass-through. -/
theorem sluice_fresh_gate_forwards_only_first_write :
    (Sluice.init : Sluice Nat).flowIn = true ∧
    (Sluice.init : Sluice Nat).flowOut = true ∧
    ((SluiceW.fresh (α := Nat)).writeSeq [1, 2]).gate.pushed = [some 1] ∧
    ((SluiceW.fresh (α := Nat)).writeSeq [1, 2]).writeQueue = [2] ∧
    ((SluiceW.fresh (α := Nat)).writeSeq [1, 2]).pendingAck = true := by
  decide

/-- C1 (code bug evaluation): a chunk written while the inlet is closed is
nevertheless appended to the queue (`_write` calls `next()` without
returning), and it is forwarded downstream by a later flush once the
outlet is opened — contradicting the documented "dismiss" behaviour. -/
theorem sluice_write_closed_inlet_buffers_chunk :
    (((Sluice.init (α := Nat)).freeze._write 7).1.buffer = [some 7] ∧
     ((Sluice.init (α := Nat)).freeze._write 7).2 = true) ∧
    ((Sluice.init (α := Nat)).freeze._write 7).1.fullFlow.pushed
      = [some 7] := by
  decide

/-- C4 (code bug evaluation): `pourIn()` (fill) then writing 1, 2, 3
then `pourOut()` (drain) forwards only `[1]`, not `[1, 2, 3]`: the
open-inlet branch of `_write` never calls `next()`, so after chunk 1 the
Writable machinery never dispatches chunks 2 and 3 to `_write` — they
stall permanently in the writable queue and the drain flushes a
one-chunk buffer. -/
theorem sluice_fill_write_drain_forwards_only_first :
    (((⟨(Sluice.init (α := Nat)).pourIn, false, []⟩ : SluiceW Nat).writeSeq
        [1, 2, 3]).gate.pourOut.pushed = [some 1] ∧
     ((⟨(Sluice.init (α := Nat)).pourIn, false, []⟩ : SluiceW Nat).writeSeq
        [1, 2, 3]).gate.pourOut.buffer = []) ∧
    ((⟨(Sluice.init (α := Nat)).pourIn, false, []⟩ : SluiceW Nat).writeSeq
        [1, 2, 3]).writeQueue = [2, 3] ∧
    ((⟨(Sluice.init (α := Nat)).pourIn, false, []⟩ : SluiceW Nat).writeSeq
        [1, 2, 3]).pendingAck = true := by
  decide

/-- C5: upstream `finish` appends the completion marker `none` to the
tail of the queue without closing anything; while the outlet is closed
`_read` forwards nothing; once the outlet is open, a flush forwards every
chunk queued ahead of the marker, in order, before the marker (the
end-of-data signal) itself — no buffered chunk is discarded. -/
theorem sluice_finish_marker_deferred_close {α : Type} (s : Sluice α)
    (q : List (Option α)) :
    (s.onFinish.buffer = s.buffer ++ [none] ∧ s.onFinish.pushed = s.pushed) ∧
    (s.flowOut = false → s._read = s) ∧
    (s.flowOut = true → s.buffer = q ++ [none] →
      s._read.pushed = s.pushed ++ q ++ [none] ∧ s._read.buffer = []) := by
  refine ⟨⟨rfl, rfl⟩, fun hClosed => ?_, fun hOpen hBuf => ?_⟩
  · simp [Sluice._read, hClosed]
  · constructor <;> simp [Sluice._read, hOpen, hBuf]

/-- Closed instance of `sluice_finish_marker_deferred_close`. -/
theorem sluice_finish_marker_deferred_close_witness :
    ((⟨[some 1], true, false, []⟩ : Sluice Nat).onFinish.buffer
        = [some 1] ++ [none] ∧
      (⟨[some 1], true, false, []⟩ : Sluice Nat).onFinish.pushed = []) ∧
    ((⟨[some 1], true, false, []⟩ : Sluice Nat)._read
        = ⟨[some 1], true, false, []⟩) ∧
    ((⟨[some 1, none], true, true, []⟩ : Sluice Nat)._read.pushed
        = [] ++ [some 1] ++ [none] ∧
      (⟨[some 1, none], true, true, []⟩ : Sluice Nat)._read.buffer = []) := by
  refine ⟨(sluice_finish_marker_deferred_close
      (⟨[some 1], true, false, []⟩ : Sluice Nat) []).1, ?_, ?_⟩
  · exact (sluice_finish_marker_deferred_close
      (⟨[some 1], true, false, []⟩ : Sluice Nat) []).2.1 rfl
  · exact (sluice_finish_marker_deferred_close
      (⟨[some 1, none], true, true, []⟩ : Sluice Nat) [some 1]).2.2 rfl rfl

/-- C9: each valve operation is idempotent on the gate state, and the
composites decompose exactly as `pourIn = closeOutlet; openInlet`,
`pourOut = openOutlet; closeInlet`, `fullFlow = openOutlet; openInlet`,
`freeze = closeOutlet; closeInlet`.  ("Returns the gate for chaining" is
the `Sluice α → Sluice α` shape of every operation: each returns the
updated gate itself.) -/
theorem sluice_valve_ops_idempotent_and_composites {α : Type} (s : Sluice α) :
    (s.openInlet.openInlet = s.openInlet ∧
     s.closeInlet.closeInlet = s.closeInlet ∧
     s.openOutlet.openOutlet = s.openOutlet ∧
     s.closeOutlet.closeOutlet = s.closeOutlet) ∧
    (s.pourIn.pourIn = s.pourIn ∧
     s.pourOut.pourOut = s.pourOut ∧
     s.fullFlow.fullFlow = s.fullFlow ∧
     s.freeze.freeze = s.freeze) ∧
    (s.pourIn = s.closeOutlet.openInlet ∧
     s.pourOut = s.openOutlet.closeInlet ∧
     s.fullFlow = s.openOutlet.openInlet ∧
     s.freeze = s.closeOutlet.closeInlet) := by
  refine ⟨⟨?_, ?_, ?_, ?_⟩, ⟨?_, ?_, ?_, ?_⟩, rfl, rfl, rfl, rfl⟩ <;>
    simp [Sluice.openInlet, Sluice.closeInlet, Sluice.openOutlet,
      Sluice.closeOutlet, Sluice.pourIn, Sluice.pourOut, Sluice.fullFlow,
      Sluice.freeze, Sluice._read]

end SluiceTheorems

/-! ## Pump (`src/lib/sluice.js`, second file: the Pump coordinator) -/

/-- Discipline of a registered stream: `'readable'` (pull) or
`'writable'` (push). -/
inductive StreamType where
  | readable
  | writable
  deriving DecidableEq

/-- An external stream as seen at registration time: the duck-typed
capability flags `stream.readable` / `stream.writable` that the
registration methods test. -/
structure Endpoint where
  readable : Bool
  writable : Bool
  deriving DecidableEq

/-- Asynchronous effects a Pump step requests from its environment:
`rearmRead` is `source.read(0)` (prompts the pull source to re-signal
readiness or end), `callNext` invokes a push source's stored `next`
continuation, `wait` is the zero-delay `setTimeout` re-invoking
`destroy()`. -/
inductive Act where
  | rearmRead
  | callNext
  | wait
  deriving DecidableEq

/-- Observed calls on a push (writable) destination: `write chunk` and
`close` (`destination.end()`). -/
inductive DestEv (α : Type) where
  | write (chunk : Option α)
  | close
  deriving DecidableEq

/-- The synchronous registration errors thrown by the four `register*`
methods. -/
inductive RegErr where
  | alreadySource
  | alreadyDest
  | notReadable
  | notWritable
  deriving DecidableEq

/-- Pump state plus the state of the surrounding streams it touches.

Pump-instance fields mirror the prototype fields of `Pump`:
`source`/`destination`, `sourceType`/`destinationType`,
`sourceIsReady`/`sourceIsFinished`/`destinationIsReady`, `bytesToRead`,
`lastChunk` (a push source's last delivered chunk; the stored `next`
continuation is modelled by `Act.callNext`, and the stored encoding is
opaque and unused).

Environment fields: `srcBuf` — chunks currently available to
`source.read()` on a pull source; `srcWritableEnded` — a push source's
`_writableState.ended`; `destBuf` — a pull destination's
`_readableState.buffer` (entries appended by `destination.push(c)`);
`destEnded` — the pull destination received `push(null)`; `destTrace` —
call trace of a push destination. -/
structure Sys (α : Type) where
  source : Option Endpoint := none
  destination : Option Endpoint := none
  sourceType : Option StreamType := none
  destinationType : Option StreamType := none
  sourceIsReady : Bool := false
  sourceIsFinished : Bool := false
  destinationIsReady : Bool := false
  bytesToRead : Nat := 0
  lastChunk : Option α := none
  srcBuf : List α := []
  srcWritableEnded : Bool := false
  destBuf : List α := []
  destEnded : Bool := false
  destTrace : List (DestEv α) := []
  deriving DecidableEq

namespace Pump

variable {α : Type}

/-- A freshly constructed Pump (all prototype defaults) with pristine
environment streams. -/
def init : Sys α := {}

/-- `destination.push(chunk)` on a pull destination: `push(null)` marks
the readable side ended, `push(c)` appends `c` to its internal buffer. -/
def destPush (s : Sys α) (chunk : Option α) : Sys α :=
  match chunk with
  | none => { s with destEnded := true }
  | some c => { s with destBuf := s.destBuf ++ [c] }

/-- `Pump.prototype.registerReadableSource`: duplicate-source check, then
capability check, then record the source; its `readable`/`end`/`error`
listeners are the driver functions below.  Errors are returned together
with the (unmutated) state, as a JS `throw` leaves `this` untouched. -/
def registerReadableSource (s : Sys α) (src : Endpoint) :
    Option RegErr × Sys α :=
  if s.source.isSome then (some .alreadySource, s)
  else if src.readable = false then (some .notReadable, s)
  else (none, { s with source := some src, sourceType := some .readable })

/-- `Pump.prototype.registerWritableSource`: duplicate-source check, then
capability check, then record the source and override its `_write` (the
driver's write handler). -/
def registerWritableSource (s : Sys α) (src : Endpoint) :
    Option RegErr × Sys α :=
  if s.source.isSome then (some .alreadySource, s)
  else if src.writable = false then (some .notWritable, s)
  else (none, { s with source := some src, sourceType := some .writable })

/-- `Pump.prototype.registerReadableDestination`: duplicate-destination
check, then capability check, then record the destination and override
its `_read` (the driver's more-requested handler). -/
def registerReadableDestination (s : Sys α) (dst : Endpoint) :
    Option RegErr × Sys α :=
  if s.destination.isSome then (some .alreadyDest, s)
  else if dst.readable = false then (some .notReadable, s)
  else (none,
    { s with destination := some dst, destinationType := some .readable })

/-- `Pump.prototype.registerWritableDestination`: duplicate-destination
check, then capability check, then record the destination; a push
destination is considered ready immediately. -/
def registerWritableDestination (s : Sys α) (dst : Endpoint) :
    Option RegErr × Sys α :=
  if s.destination.isSome then (some .alreadyDest, s)
  else if dst.writable = false then (some .notWritable, s)
  else (none,
    { s with destination := some dst, destinationType := some .writable,
             destinationIsReady := true })

/-- `Pump.prototype.onPump(source, destination, pump)`: read one chunk
(`source.read()` for a pull source — only reached when a destination type
is set — or the held `source.chunk` of a push source), deliver it
(`destination.push` or `destination.write`), then, if the source is not
finished, re-arm it (`source.read(0)` or `source.next()`). -/
def onPump (s : Sys α) : Sys α × List Act :=
  let doRead := s.sourceType = some .readable ∧
    (s.destinationType = some .readable ∨ s.destinationType = some .writable)
  let chunk : Option α :=
    if doRead then s.srcBuf.head?
    else if s.sourceType = some .writable then s.lastChunk
    else none
  let s1 := if doRead then { s with srcBuf := s.srcBuf.tail } else s
  let s2 :=
    if s.destinationType = some .readable then destPush s1 chunk
    else if s.destinationType = some .writable then
      { s1 with destTrace := s1.destTrace ++ [DestEv.write chunk] }
    else s1
  if s.sourceIsFinished = false then
    if s.sourceType = some .writable then (s2, [Act.callNext])
    else if s.sourceType = some .readable then (s2, [Act.rearmRead])
    else (s2, [])
  else (s2, [])

/-- `Pump.prototype.destroy(force)`: unless forced, defer (zero-delay
re-check) while a pull destination's internal buffer is non-empty or a
push source has not ended; otherwise signal end-of-data (`push(null)`)
to a pull destination or `end()` a push destination. -/
def destroy (s : Sys α) (force : Bool) : Sys α × List Act :=
  if force = false ∧ s.destinationType = some .readable ∧
      s.destBuf.length ≠ 0 then
    (s, [Act.wait])
  else if force = false ∧ s.sourceType = some .writable ∧
      s.srcWritableEnded = false then
    (s, [Act.wait])
  else if s.destinationType = some .readable then (destPush s none, [])
  else if s.destinationType = some .writable then
    ({ s with destTrace := s.destTrace ++ [DestEv.close] }, [])
  else (s, [])

/-- `Pump.prototype.pump`: when both readiness flags hold, clear
`sourceIsReady` (and `destinationIsReady` unless the destination is a
push stream) and dispatch `onPump` on the discipline pairing — the
pull-source/push-destination branch redundantly clears `sourceIsReady`
again afterwards; otherwise, if the source has finished, call
`destroy()` (non-forced); otherwise do nothing. -/
def pump (s : Sys α) : Sys α × List Act :=
  if s.sourceIsReady && s.destinationIsReady then
    let dReady := if s.destinationType ≠ some .writable then false
                  else s.destinationIsReady
    let s1 := { s with sourceIsReady := false, destinationIsReady := dReady }
    if s1.sourceType = some .readable ∧
        s1.destinationType = some .writable then
      let p := onPump s1
      ({ p.1 with sourceIsReady := false }, p.2)
    else if s1.sourceType = some .readable ∧
        s1.destinationType = some .readable then
      onPump s1
    else if s1.sourceType = some .writable ∧
        s1.destinationType = some .readable then
      onPump s1
    else if s1.sourceType = some .writable ∧
        s1.destinationType = some .writable then
      onPump s1
    else (s1, [])
  else if s.sourceIsFinished then
    destroy s false
  else (s, [])

/-- The `readable` listener a pull source gets at registration:
`sourceIsReady = true; pump()`. -/
def handleReadable (s : Sys α) : Sys α × List Act :=
  pump { s with sourceIsReady := true }

/-- The `end` listener a pull source gets at registration:
`sourceIsFinished = true; pump()`. -/
def handleEnd (s : Sys α) : Sys α × List Act :=
  pump { s with sourceIsFinished := true }

/-- The `error` listener a pull source gets at registration:
`self.destroy()` — with no argument, i.e. non-forced. -/
def handleError (s : Sys α) : Sys α × List Act :=
  destroy s false

/-- The `_write` override a push source gets at registration: store the
chunk (and, in the source, its encoding and `next` continuation), mark
the source ready, `pump()`. -/
def handleWrite (s : Sys α) (chunk : α) : Sys α × List Act :=
  pump { s with lastChunk := some chunk, sourceIsReady := true }

/-- The `_read` override a pull destination gets at registration: store
the requested byte count, mark the destination ready, `pump()`. -/
def handleMoreRequested (s : Sys α) (bytes : Nat) : Sys α × List Act :=
  pump { s with bytesToRead := bytes, destinationIsReady := true }

/-- Single-threaded event-loop driver for a Pump whose source is a pull
stream over a finite chunk list: pending `Act`s are serviced FIFO.
`rearmRead` (`source.read(0)`) makes the source emit `readable` while it
still has chunks and `end` once they are exhausted; `wait` re-invokes the
non-forced `destroy`; `callNext` concerns push sources only and delivers
nothing here.  Fuel bounds the run. -/
def runLoop : Nat → Sys α → List Act → Sys α
  | 0, s, _ => s
  | _ + 1, s, [] => s
  | n + 1, s, Act.rearmRead :: rest =>
    if s.srcBuf.isEmpty then
      let p := handleEnd s
      runLoop n p.1 (rest ++ p.2)
    else
      let p := handleReadable s
      runLoop n p.1 (rest ++ p.2)
  | n + 1, s, Act.wait :: rest =>
    let p := destroy s false
    runLoop n p.1 (rest ++ p.2)
  | n + 1, s, Act.callNext :: rest => runLoop n s rest

/-- A Pump armed with a pull source holding the chunks `cs` and a push
destination, via the two registration calls. -/
def armedPullPush (cs : List α) : Sys α :=
  let s : Sys α := { init with srcBuf := cs }
  let s := (registerReadableSource s ⟨true, false⟩).2
  (registerWritableDestination s ⟨false, true⟩).2

/-- The full pull-source → push-destination run: the environment first
announces the source's state (initial `rearmRead` probe), then the loop
services every event until quiescence. -/
def pullPushTrace (cs : List α) : List (DestEv α) :=
  (runLoop (cs.length + 2) (armedPullPush cs) [Act.rearmRead]).destTrace

end Pump

section PumpTheorems

/-- An armed Pump used as a concrete instance: pull source and push
destination already registered. -/
def exArmed : Sys Nat :=
  { source := some ⟨true, false⟩, destination := some ⟨false, true⟩,
    sourceType := some .readable, destinationType := some .writable,
    destinationIsReady := true }

/-- A Pump whose source has finished while the readiness pair does not
hold (pull source, push destination). -/
def exFinished : Sys Nat :=
  { source := some ⟨true, false⟩, destination := some ⟨false, true⟩,
    sourceType := some .readable, destinationType := some .writable,
    destinationIsReady := true, sourceIsFinished := true }

/-- A ready pull-source / pull-destination Pump with two chunks
available at the source. -/
def exPullPull : Sys Nat :=
  { source := some ⟨true, false⟩, destination := some ⟨true, false⟩,
    sourceType := some .readable, destinationType := some .readable,
    sourceIsReady := true, destinationIsReady := true, srcBuf := [5, 6] }

/-- A pull-destination Pump whose destination still buffers an unread
chunk. -/
def exDestBuffered : Sys Nat :=
  { destination := some ⟨true, false⟩, destinationType := some .readable,
    destBuf := [5] }

/-- `destroy` never touches the readiness flags, the source's available
chunks, or the destination's buffered chunks — it only signals
end-of-data / `end()` or defers. -/
theorem Pump.destroy_preserves {α : Type} (s : Sys α) (force : Bool) :
    (Pump.destroy s force).1.sourceIsReady = s.sourceIsReady ∧
    (Pump.destroy s force).1.destinationIsReady = s.destinationIsReady ∧
    (Pump.destroy s force).1.srcBuf = s.srcBuf ∧
    (Pump.destroy s force).1.destBuf = s.destBuf := by
  unfold Pump.destroy
  split
  · simp
  · split
    · simp
    · split
      · simp [Pump.destPush]
      · split <;> simp

/-- C6: on a Pump with a source and a destination already registered,
every further source (resp. destination) registration fails with the
duplicate error and returns the state unchanged; on a Pump without one,
registering an endpoint lacking the declared capability fails with the
mismatch error, also leaving the state unchanged. -/
theorem pump_registration_errors_leave_state_unchanged {α : Type}
    (s t : Sys α) (ep bad : Endpoint)
    (hs : s.source.isSome = true) (hd : s.destination.isSome = true)
    (ht : t.source = none) (htd : t.destination = none)
    (hr : bad.readable = false) (hw : bad.writable = false) :
    Pump.registerReadableSource s ep = (some RegErr.alreadySource, s) ∧
    Pump.registerWritableSource s ep = (some RegErr.alreadySource, s) ∧
    Pump.registerReadableDestination s ep = (some RegErr.alreadyDest, s) ∧
    Pump.registerWritableDestination s ep = (some RegErr.alreadyDest, s) ∧
    Pump.registerReadableSource t bad = (some RegErr.notReadable, t) ∧
    Pump.registerWritableSource t bad = (some RegErr.notWritable, t) ∧
    Pump.registerReadableDestination t bad = (some RegErr.notReadable, t) ∧
    Pump.registerWritableDestination t bad = (some RegErr.notWritable, t) := by
  refine ⟨?_, ?_, ?_, ?_, ?_, ?_, ?_, ?_⟩ <;>
    simp [Pump.registerReadableSource, Pump.registerWritableSource,
      Pump.registerReadableDestination, Pump.registerWritableDestination,
      hs, hd, ht, htd, hr, hw]

/-- Closed instance of `pump_registration_errors_leave_state_unchanged`
on an armed Pump and a fresh Pump. -/
theorem pump_registration_errors_witness_instance :
    Pump.registerReadableSource exArmed ⟨true, true⟩
      = (some RegErr.alreadySource, exArmed) ∧
    Pump.registerWritableSource exArmed ⟨true, true⟩
      = (some RegErr.alreadySource, exArmed) ∧
    Pump.registerReadableDestination exArmed ⟨true, true⟩
      = (some RegErr.alreadyDest, exArmed) ∧
    Pump.registerWritableDestination exArmed ⟨true, true⟩
      = (some RegErr.alreadyDest, exArmed) ∧
    Pump.registerReadableSource (Pump.init : Sys Nat) ⟨false, false⟩
      = (some RegErr.notReadable, Pump.init) ∧
    Pump.registerWritableSource (Pump.init : Sys Nat) ⟨false, false⟩
      = (some RegErr.notWritable, Pump.init) ∧
    Pump.registerReadableDestination (Pump.init : Sys Nat) ⟨false, false⟩
      = (some RegErr.notReadable, Pump.init) ∧
    Pump.registerWritableDestination (Pump.init : Sys Nat) ⟨false, false⟩
      = (some RegErr.notWritable, Pump.init) :=
  pump_registration_errors_leave_state_unchanged exArmed Pump.init
    ⟨true, true⟩ ⟨false, false⟩ rfl rfl rfl rfl rfl rfl

/-- C3: with a pull destination whose internal buffer still holds an
unread chunk, a non-forced `destroy` signals nothing and changes
nothing — it only schedules a deferred re-check, which re-invokes
`destroy` — while a forced `destroy` bypasses the check and signals
end-of-data immediately. -/
theorem pump_destroy_defers_while_dest_buffer_nonempty {α : Type}
    (s : Sys α) (hd : s.destinationType = some .readable)
    (hb : s.destBuf.length ≠ 0) :
    Pump.destroy s false = (s, [Act.wait]) ∧
    (∀ n : Nat, Pump.runLoop (n + 1) s [Act.wait]
      = Pump.runLoop n s [Act.wait]) ∧
    (Pump.destroy s true).1.destEnded = true := by
  have h1 : Pump.destroy s false = (s, [Act.wait]) := by
    simp [Pump.destroy, hd, hb]
  refine ⟨h1, fun n => ?_, ?_⟩
  · simp [Pump.runLoop, h1]
  · simp [Pump.destroy, Pump.destPush, hd]

/-- Closed instance of `pump_destroy_defers_while_dest_buffer_nonempty`. -/
theorem pump_destroy_defers_witness :
    Pump.destroy exDestBuffered false = (exDestBuffered, [Act.wait]) ∧
    (∀ n : Nat, Pump.runLoop (n + 1) exDestBuffered [Act.wait]
      = Pump.runLoop n exDestBuffered [Act.wait]) ∧
    (Pump.destroy exDestBuffered true).1.destEnded = true :=
  pump_destroy_defers_while_dest_buffer_nonempty exDestBuffered rfl
    (by decide)

/-- C7 counterexample: in a state where the readiness pair does not hold
but the source has finished, `pump` is not a no-op — it invokes
`destroy`, which closes the push destination, and a redundant second
invocation closes it a second time. -/
theorem pump_not_noop_when_source_finished :
    (exFinished.sourceIsReady && exFinished.destinationIsReady) = false ∧
    (Pump.pump exFinished).1 ≠ exFinished ∧
    (Pump.pump exFinished).1.destTrace = [DestEv.close] ∧
    (Pump.pump (Pump.pump exFinished).1).1.destTrace
      = [DestEv.close, DestEv.close] := by
  decide

/-- C7 (amended): when the readiness pair does not hold, `pump` is a
strict no-op provided the source has not finished; when the source has
finished it instead delegates to the non-forced `destroy`, which still
transfers no chunk and changes no readiness flag. -/
theorem pump_noop_unless_ready_or_finished {α : Type} (s : Sys α)
    (h : (s.sourceIsReady && s.destinationIsReady) = false) :
    (s.sourceIsFinished = false → Pump.pump s = (s, [])) ∧
    (s.sourceIsFinished = true →
      Pump.pump s = Pump.destroy s false ∧
      (Pump.pump s).1.sourceIsReady = s.sourceIsReady ∧
      (Pump.pump s).1.destinationIsReady = s.destinationIsReady ∧
      (Pump.pump s).1.srcBuf = s.srcBuf ∧
      (Pump.pump s).1.destBuf = s.destBuf) := by
  constructor
  · intro hf
    simp [Pump.pump, h, hf]
  · intro hf
    have hp : Pump.pump s = Pump.destroy s false := by
      simp [Pump.pump, h, hf]
    have hd := Pump.destroy_preserves s false
    exact ⟨hp, by rw [hp]; exact hd.1, by rw [hp]; exact hd.2.1,
      by rw [hp]; exact hd.2.2.1, by rw [hp]; exact hd.2.2.2⟩

/-- Closed instance of `pump_noop_unless_ready_or_finished`: a no-op on
a fresh Pump, delegation to `destroy` on a finished one. -/
theorem pump_noop_unless_ready_or_finished_witness :
    Pump.pump (Pump.init : Sys Nat) = (Pump.init, []) ∧
    Pump.pump exFinished = Pump.destroy exFinished false :=
  ⟨(pump_noop_unless_ready_or_finished (Pump.init : Sys Nat)
      (by decide)).1 rfl,
   ((pump_noop_unless_ready_or_finished exFinished (by decide)).2 rfl).1⟩

/-- C8 counterexample: on a ready pull-source / pull-destination pair,
a transfer moves one chunk into the destination's readable buffer and
clears the source's readiness flag as well — source readiness does not
persist through the transfer. -/
theorem pump_pull_pull_clears_source_readiness :
    exPullPull.sourceIsReady = true ∧
    (Pump.pump exPullPull).1.destBuf = exPullPull.destBuf ++ [5] ∧
    (Pump.pump exPullPull).1.sourceIsReady = false := by
  decide

/-- C8 (amended): each pull→pull transfer reads one chunk from the
source and hands it to the destination's push-into-readable-buffer
primitive, clears both readiness flags, and (the source not being
finished) issues a zero-byte re-arming read so the source re-signals
readiness. -/
theorem pump_pull_pull_transfer_step {α : Type} (s : Sys α) (c : α)
    (rest : List α)
    (hst : s.sourceType = some .readable)
    (hdt : s.destinationType = some .readable)
    (hsr : s.sourceIsReady = true) (hdr : s.destinationIsReady = true)
    (hf : s.sourceIsFinished = false) (hb : s.srcBuf = c :: rest) :
    Pump.pump s =
      ({ s with sourceIsReady := false, destinationIsReady := false,
                srcBuf := rest, destBuf := s.destBuf ++ [c] },
       [Act.rearmRead]) := by
  simp [Pump.pump, Pump.onPump, Pump.destPush, hst, hdt, hsr, hdr, hf, hb]

/-- Closed instance of `pump_pull_pull_transfer_step`. -/
theorem pump_pull_pull_transfer_step_witness :
    Pump.pump exPullPull =
      ({ exPullPull with sourceIsReady := false,
                         destinationIsReady := false, srcBuf := [6],
                         destBuf := exPullPull.destBuf ++ [5] },
       [Act.rearmRead]) :=
  pump_pull_pull_transfer_step exPullPull 5 [6] rfl rfl rfl rfl rfl rfl

end PumpTheorems

section PullPushRun

/-- One driver step: a `rearmRead` event on a source that still has a
chunk makes the source emit `readable`. -/
theorem Pump.runLoop_rearm_readable {α : Type} (n : Nat) (s : Sys α)
    (acts : List Act) (h : s.srcBuf.isEmpty = false) :
    Pump.runLoop (n + 1) s (Act.rearmRead :: acts)
      = Pump.runLoop n (Pump.handleReadable s).1
          (acts ++ (Pump.handleReadable s).2) := by
  simp [Pump.runLoop, h]

/-- One driver step: a `rearmRead` event on an exhausted source makes
the source emit `end`. -/
theorem Pump.runLoop_rearm_end {α : Type} (n : Nat) (s : Sys α)
    (acts : List Act) (h : s.srcBuf.isEmpty = true) :
    Pump.runLoop (n + 1) s (Act.rearmRead :: acts)
      = Pump.runLoop n (Pump.handleEnd s).1 (acts ++ (Pump.handleEnd s).2) := by
  simp [Pump.runLoop, h]

/-- One pull→push transfer as seen by the driver: `readable` fires, the
Pump moves the head chunk to the push destination's `write`, and asks
for a re-arming zero-byte read. -/
theorem Pump.handleReadable_pullPush {α : Type} (s : Sys α) (c : α)
    (rest : List α)
    (hst : s.sourceType = some .readable)
    (hdt : s.destinationType = some .writable)
    (hf : s.sourceIsFinished = false)
    (hdr : s.destinationIsReady = true)
    (hb : s.srcBuf = c :: rest) :
    Pump.handleReadable s =
      ({ s with sourceIsReady := false, srcBuf := rest,
                destTrace := s.destTrace ++ [DestEv.write (some c)] },
       [Act.rearmRead]) := by
  simp [Pump.handleReadable, Pump.pump, Pump.onPump, hst, hdt, hf, hdr, hb]

/-- Source exhaustion as seen by the driver on a pull→push Pump whose
readiness pair no longer holds: `end` fires and the Pump (through the
non-forced `destroy`) calls `end()` on the push destination. -/
theorem Pump.handleEnd_pullPush {α : Type} (s : Sys α)
    (hst : s.sourceType = some .readable)
    (hdt : s.destinationType = some .writable)
    (hsr : s.sourceIsReady = false) :
    Pump.handleEnd s =
      ({ s with sourceIsFinished := true,
                destTrace := s.destTrace ++ [DestEv.close] },
       []) := by
  simp [Pump.handleEnd, Pump.pump, Pump.destroy, hst, hdt, hsr]

/-- The pull→push run delivers every chunk of `cs`, in order, to the
push destination's `write`, then calls `end()` exactly once. -/
theorem Pump.runLoop_pullPush {α : Type} (cs : List α) :
    ∀ s : Sys α, s.sourceType = some .readable →
      s.destinationType = some .writable →
      s.sourceIsReady = false → s.sourceIsFinished = false →
      s.destinationIsReady = true → s.srcBuf = cs →
      (Pump.runLoop (cs.length + 2) s [Act.rearmRead]).destTrace
        = s.destTrace ++ cs.map (fun c => DestEv.write (some c))
            ++ [DestEv.close] := by
  induction cs with
  | nil =>
    intro s h1 h2 h3 h4 h5 h6
    show (Pump.runLoop (1 + 1) s [Act.rearmRead]).destTrace = _
    rw [Pump.runLoop_rearm_end 1 s [] (by simp [h6]),
      Pump.handleEnd_pullPush s h1 h2 h3]
    simp [Pump.runLoop]
  | cons c rest ih =>
    intro s h1 h2 h3 h4 h5 h6
    show (Pump.runLoop (rest.length + 2 + 1) s [Act.rearmRead]).destTrace = _
    rw [Pump.runLoop_rearm_readable (rest.length + 2) s [] (by simp [h6]),
      Pump.handleReadable_pullPush s c rest h1 h2 h4 h5 h6]
    simp only [List.nil_append]
    rw [ih { s with sourceIsReady := false, srcBuf := rest,
                    destTrace := s.destTrace ++ [DestEv.write (some c)] }
      h1 h2 rfl h4 h5 rfl]
    simp

/-- C2: for every chunk sequence `cs` moved through a pull-source →
push-destination Pump, the destination's `write` receives exactly the
chunks of `cs`, each once, in order, followed by exactly one `end()`
call. -/
theorem pump_pull_push_delivers_all_chunks_then_close {α : Type}
    (cs : List α) :
    Pump.pullPushTrace cs
      = cs.map (fun c => DestEv.write (some c)) ++ [DestEv.close] := by
  have h := Pump.runLoop_pullPush cs (Pump.armedPullPush cs)
    rfl rfl rfl rfl rfl rfl
  have hTrace : (Pump.armedPullPush (α := α) cs).destTrace = [] := rfl
  rw [Pump.pullPushTrace, h, hTrace]
  simp

end PullPushRun
